import Mathlib

/-!
Shallow embedding of the CPU core of the gamebro Game Boy emulator
(`src/libgbc/cpu.cpp`, the richer of the two CPU variants in the repository,
which the specification designates as authoritative; the older variant is
`src/unnamed/part_001`).

Machine integers are modelled as `Nat` with explicit `% 2^16` / `% 2^8`
masking where the C++ types (`uint16_t`, `uint8_t`) wrap.  The signed
interrupt-toggle countdown `m_intr_pending` and the step-break counters are
`Int`, matching the C++ `int` fields (their values never approach the
32-bit bounds in any reachable state).  The memory bus, the I/O register
file, the per-opcode instruction handlers, the breakpoint callbacks and the
debug console live outside `cpu.cpp`; following the specification's
interface contracts they are modelled as explicit state (memory, IF/IE) and
as oracle parameters (handlers, callback registry, console action).
-/

namespace Gamebro

/-- A registered breakpoint.  The `callback` member of the C++ struct is a
function pointer; it is represented by an identifier `cb` resolved through a
callback-registry oracle, so that the state stays a first-order value.  The
`break_on_steps` and `verbose_instr` members are declared in `cpu.hpp`
(cf. spec §3 "Breakpoint") and are read by the older `CPU::execute` variant. -/
structure Breakpoint where
  cb : Nat
  break_on_steps : Int
  verbose_instr : Bool
deriving DecidableEq

/-- The CPU state of `src/libgbc/cpu.cpp` together with the pieces of its
environment that the core reads and writes: the memory bus (a byte map),
the IF/IE interrupt registers of the I/O unit, and the machine's
`verbose_instructions` flag. -/
structure CPU where
  /-- Source `m_running`; set to false only by `CPU::stop()` (debug quit). -/
  running : Bool
  /-- Source `m_break`, the one-shot break flag. -/
  brk : Bool
  /-- Source `m_asleep`; set by `CPU::wait()` (the HALT handler). -/
  asleep : Bool
  /-- Source `m_intr_master_enable` (IME). -/
  ime : Bool
  /-- Source `m_haltbug`, the post-HALT fetch counter. -/
  haltbug : Nat
  /-- Source `m_intr_pending`: positive = enable countdown, negative =
  disable. -/
  intr_pending : Int
  /-- Source `m_cycles_total`, the monotone T-state counter. -/
  cycles_total : Nat
  /-- Source `m_cur_opcode`, the last fetched opcode byte. -/
  cur_opcode : Nat
  /-- Program counter. -/
  pc : Nat
  /-- Register pair AF (A high byte, F low byte). -/
  af : Nat
  bc : Nat
  de : Nat
  hl : Nat
  sp : Nat
  /-- Memory bus contents: byte stored at each 16-bit address. -/
  mem : Nat → Nat
  /-- I/O unit IF (interrupt flag) register. -/
  regIF : Nat
  /-- I/O unit IE (interrupt enable) register. -/
  regIE : Nat
  /-- Source `m_break_steps_cnt`, the periodic-break period (0 disables). -/
  break_steps_cnt : Int
  /-- Source `m_break_steps`, the periodic-break countdown. -/
  break_steps : Int
  /-- Source `m_breakpoints`, the pc -> Breakpoint map, as an association
  list. -/
  breakpoints : List (Nat × Breakpoint)
  /-- Source `machine().verbose_instructions`. -/
  verbose : Bool
  /-- Source `m_last_flags`, the cached F register for verbose
  change-logging. -/
  last_flags : Nat

/-- The instruction groups returned by `CPU::decode`; one constructor per
`instr_*` descriptor of `src/libgbc/cpu.cpp`. -/
inductive Instr where
  | NOP | LD_N_SP | LD_D_D | HALT | LD_R_N | LD_R_A_R | ADD_HL_R
  | INC_DEC_R | INC_DEC_D | RLC_RRC | STOP | JR_N | LD_D_N | LDID_HL_A
  | DAA | CPL | SCF_CCF | ALU_A_N_D | PUSH_POP | RET | RST | JP | CALL
  | ADD_SP_N | LD_N_A_N | LD_xxx_A | LD_HL_SP | LD_JP_HL | DI_EI
  | CB_EXT | UNUSED_OPS | MISSING
deriving DecidableEq

/-- Source `CPU::decode` of `src/libgbc/cpu.cpp` (lines 147-198): the first-match
bit-pattern chain, transcribed test for test in source order, including the
unreachable duplicate `(op & 0xef) == 0xea` test. -/
def decode (op : Nat) : Instr :=
  if op = 0 then .NOP
  else if op = 0x08 then .LD_N_SP
  else if op &&& 0xc0 = 0x40 then
    (if op = 0x76 then .HALT else .LD_D_D)
  else if op &&& 0xcf = 0x1 then .LD_R_N
  else if op &&& 0xe7 = 0x2 then .LD_R_A_R
  else if op &&& 0xcf = 0x9 then .ADD_HL_R
  else if op &&& 0xc7 = 0x3 then .INC_DEC_R
  else if op &&& 0xc6 = 0x4 then .INC_DEC_D
  else if op &&& 0xe7 = 0x7 then .RLC_RRC
  else if op = 0x10 then .STOP
  else if op = 0x18 then .JR_N
  else if op &&& 0xe7 = 0x20 then .JR_N
  else if op &&& 0xc7 = 0x6 then .LD_D_N
  else if op &&& 0xe7 = 0x22 then .LDID_HL_A
  else if op = 0x27 then .DAA
  else if op = 0x2f then .CPL
  else if op &&& 0xf7 = 0x37 then .SCF_CCF
  else if op &&& 0xc7 = 0xc6 then .ALU_A_N_D
  else if op &&& 0xc0 = 0x80 then .ALU_A_N_D
  else if op &&& 0xcb = 0xc1 then .PUSH_POP
  else if op &&& 0xe7 = 0xc0 then .RET
  else if op &&& 0xef = 0xc9 then .RET
  else if op &&& 0xc7 = 0xc7 then .RST
  else if op &&& 0xff = 0xc3 then .JP
  else if op &&& 0xe7 = 0xc2 then .JP
  else if op &&& 0xff = 0xc4 then .CALL
  else if op &&& 0xcd = 0xcd then .CALL
  else if op = 0xe8 then .ADD_SP_N
  else if op &&& 0xef = 0xea then .LD_N_A_N
  else if op &&& 0xef = 0xe0 then .LD_xxx_A
  else if op &&& 0xef = 0xe2 then .LD_xxx_A
  else if op &&& 0xef = 0xea then .LD_xxx_A
  else if op = 0xf8 then .LD_HL_SP
  else if op &&& 0xef = 0xe9 then .LD_JP_HL
  else if op &&& 0xf7 = 0xf3 then .DI_EI
  else if op = 0xcb then .CB_EXT
  else if op = 0xdb then .UNUSED_OPS
  else if op = 0xeb then .UNUSED_OPS
  else if op = 0xec then .UNUSED_OPS
  else if op = 0xe4 then .UNUSED_OPS
  else if op = 0xfc then .UNUSED_OPS
  else if op = 0xf4 then .UNUSED_OPS
  else .MISSING

/-- Source `Memory::read8`: the byte stored at a 16-bit address. -/
def read8 (s : CPU) (a : Nat) : Nat := s.mem (a % 65536)

/-- One byte store at a 16-bit address (the value is masked to 8 bits). -/
def write8 (m : Nat → Nat) (a v : Nat) : Nat → Nat :=
  fun x => if x = a % 65536 then v % 256 else m x

/-- Modelled from the spec: `Memory::write16` is not in `src/`; spec §6
defines the memory bus as little-endian, so the low byte goes to `a` and
the high byte to `a + 1`. -/
def write16 (m : Nat → Nat) (a v : Nat) : Nat → Nat :=
  write8 (write8 m a v) (a + 1) (v / 256)

/-- Source `CPU::incr_cycles` (cpu.cpp lines 207-211): adds a non-negative count
to `m_cycles_total` (the count is `Nat` here, so the C++ assertion
`count >= 0` holds by type). -/
def incr_cycles (s : CPU) (count : Nat) : CPU :=
  { s with cycles_total := s.cycles_total + count }

/-- Source `CPU::stop` (cpu.cpp lines 213-216). -/
def stop (s : CPU) : CPU := { s with running := false }

/-- Source `CPU::wait` (cpu.cpp lines 218-222): the HALT handler's entry point. -/
def wait (s : CPU) : CPU := { s with asleep := true, haltbug := 2 }

/-- Source `CPU::enable_interrupts` (cpu.cpp lines 97-99). -/
def enable_interrupts (s : CPU) : CPU := { s with intr_pending := 2 }

/-- Source `CPU::disable_interrupts` (cpu.cpp lines 100-102). -/
def disable_interrupts (s : CPU) : CPU := { s with intr_pending := -2 }

/-- Source `CPU::push_and_jump` (cpu.cpp lines 224-230): decrement SP by 2 with
16-bit wrap-around, store PC little-endian at the new SP, jump to the
vector; returns 8 T-states. -/
def push_and_jump (s : CPU) (address : Nat) : CPU × Nat :=
  ({ s with sp := (s.sp + 65534) % 65536,
            mem := write16 s.mem ((s.sp + 65534) % 65536) s.pc,
            pc := address }, 8)

/-- Modelled from the spec: `IO::interrupt_mask()` lives in the I/O unit,
outside `src/`; spec §6 defines it as `IF & IE & 0x1F`. -/
def interrupt_mask (s : CPU) : Nat := s.regIF &&& s.regIE &&& 0x1f

/-- Modelled from the spec: `io.interrupt(handle)` lives in the I/O unit,
outside `src/`; spec §4.4/§6 say it clears the serviced interrupt's IF bit
and calls back `CPU::push_and_jump` with the interrupt's vector.  Any extra
cycle accounting the I/O unit performs is outside the modelled core. -/
def io_interrupt (s : CPU) (bit vec : Nat) : CPU :=
  (push_and_jump { s with regIF := s.regIF &&& (255 - bit) } vec).1

/-- Source `CPU::reset` (cpu.cpp lines 15-25): canonical register values,
`pc = 0x0`, and a cleared cycle counter.  (The older variant
`src/unnamed/part_001` sets `pc = 0x0100` instead.)  No other fields are
touched. -/
def reset (s : CPU) : CPU :=
  { s with af := 0x01b0, bc := 0x0013, de := 0x00d8, hl := 0x014d,
           sp := 0xfffe, pc := 0x0, cycles_total := 0 }

/-- The IME-toggle countdown at the top of `CPU::handle_interrupts`
(cpu.cpp lines 106-114). -/
def intr_countdown (s : CPU) : CPU :=
  if 0 < s.intr_pending then
    { s with intr_pending := s.intr_pending - 1,
             ime := if s.intr_pending - 1 = 0 then true else s.ime }
  else if s.intr_pending < 0 then
    { s with intr_pending := s.intr_pending + 1,
             ime := if s.intr_pending + 1 = 0 then false else s.ime }
  else s

/-- The immediate effects of accepting an interrupt in
`CPU::handle_interrupts` (cpu.cpp lines 119-122): wake, clear IME, clear
the pending toggle. -/
def service_start (s : CPU) : CPU :=
  { s with asleep := false, ime := false, intr_pending := 0 }

/-- The priority-ordered dispatch chain of `CPU::handle_interrupts`
(cpu.cpp lines 124-130), applied to the mask `m` computed before IME was
cleared.  The interrupt vectors 0x40/0x48/0x50/0x58/0x60 are those of the
I/O unit's handles (spec §4.4).  The final `else` is the defensive
`break_now()` (sets the one-shot break flag, spec §4.6). -/
def dispatch (m : Nat) (s : CPU) : CPU :=
  if m &&& 0x1 ≠ 0 then io_interrupt s 0x1 0x40
  else if m &&& 0x2 ≠ 0 then io_interrupt s 0x2 0x48
  else if m &&& 0x4 ≠ 0 then io_interrupt s 0x4 0x50
  else if m &&& 0x8 ≠ 0 then io_interrupt s 0x8 0x58
  else if m &&& 0x10 ≠ 0 then io_interrupt s 0x10 0x60
  else { s with brk := true }

/-- The interrupt-dispatch half of `CPU::handle_interrupts` (cpu.cpp lines
115-131): when IME is set and the mask is non-zero, accept the
highest-priority pending interrupt. -/
def intr_service (s : CPU) : CPU :=
  if s.ime = true ∧ interrupt_mask s ≠ 0 then
    dispatch (interrupt_mask s) (service_start s)
  else s

/-- The tail of `CPU::handle_interrupts` (cpu.cpp lines 132-135): while not
asleep, count the HALT-bug counter down toward zero. -/
def haltbug_step (s : CPU) : CPU :=
  if s.asleep = false ∧ s.haltbug ≠ 0 then { s with haltbug := s.haltbug - 1 }
  else s

/-- The post-countdown half of `CPU::handle_interrupts` (cpu.cpp lines
115-135): interrupt dispatch followed by the HALT-bug decrement. -/
def after_service (s : CPU) : CPU := haltbug_step (intr_service s)

/-- Source `CPU::handle_interrupts` (cpu.cpp lines 104-136). -/
def handle_interrupts (s : CPU) : CPU := after_service (intr_countdown s)

/-- Source `CPU::break_time` (cpu.cpp lines 419-430): returns whether to break and
the updated state (the periodic counter is a mutable member mutated even
from this const method). -/
def break_time (s : CPU) : CPU × Bool :=
  if s.brk then (s, true)
  else if s.break_steps_cnt ≠ 0 then
    if s.break_steps - 1 ≤ 0 then
      ({ s with break_steps := s.break_steps_cnt }, true)
    else ({ s with break_steps := s.break_steps - 1 }, false)
  else (s, false)

/-- Source `CPU::break_on_steps` (cpu.cpp lines 432-437). -/
def break_on_steps (s : CPU) (steps : Int) : CPU :=
  { s with break_steps_cnt := steps, break_steps := steps }

/-- Source `m_breakpoints.find(pc)` on the association list. -/
def find_bp : List (Nat × Breakpoint) → Nat → Option Breakpoint
  | [], _ => none
  | (k, b) :: rest, pcv => if k = pcv then some b else find_bp rest pcv

/-- The per-opcode instruction handlers live in `instructions.cpp`, which
is not part of the modelled core (spec §1 keeps their semantics out of
scope); a `Handlers` oracle maps the decoded group and the opcode to the
handler's state transformation and its returned T-state count. -/
def Handlers : Type := Instr → Nat → CPU → CPU × Nat

/-- The breakpoint-callback registry: resolves a `Breakpoint.cb` identifier
to the callback's state transformation (the callback receives the CPU and
the opcode). -/
def CbReg : Type := Nat → Nat → CPU → CPU

/-- The debug console (`print_and_pause` and its command loop): a blocking
interaction whose net effect on the state depends on the user's input; it
is therefore an oracle parameter of the engine. -/
def Console : Type := CPU → CPU

/-- The F register, i.e. the low byte of AF (`registers().flags`). -/
def flags (s : CPU) : Nat := s.af % 256

/-- The dispatch prologue of `CPU::execute` (cpu.cpp lines 49-63): the
debug-break check (with the early return when the user quit during the
break) and, otherwise, the breakpoint lookup at the current PC.  In this
authoritative variant the breakpoint path only invokes the callback; the
`break_on_steps` / `verbose_instr` adoption appears only in the older
variant `src/unnamed/part_001` (lines 58-67).  Returns the state and
whether `execute` must return 0 immediately (user quit). -/
def exec_prologue (CB : CbReg) (console : Console) (s : CPU) (op : Nat) :
    CPU × Bool :=
  let bt := break_time s
  if bt.2 then
    let s2 := console { bt.1 with brk := false }
    (s2, !s2.running)
  else
    match find_bp bt.1.breakpoints bt.1.pc with
    | some bp => (CB bp.cb op bt.1, false)
    | none => (bt.1, false)

/-- The body of `CPU::execute` after the prologue (cpu.cpp lines 64-93):
decode, advance PC by one (16-bit wrap), run the handler, and in verbose
mode refresh `m_last_flags` when F changed. -/
def exec_main (H : Handlers) (s : CPU) (op : Nat) : CPU × Nat :=
  let s1 := { s with pc := (s.pc + 1) % 65536 }
  let hr := H (decode op) op s1
  let s2 :=
    if hr.1.verbose = true ∧ hr.1.last_flags ≠ flags hr.1 then
      { hr.1 with last_flags := flags hr.1 }
    else hr.1
  (s2, hr.2)

/-- Source `CPU::execute` (cpu.cpp lines 47-94). -/
def execute (H : Handlers) (CB : CbReg) (console : Console) (s : CPU)
    (op : Nat) : CPU × Nat :=
  let pr := exec_prologue CB console s op
  if pr.2 then (pr.1, 0) else exec_main H pr.1 op

/-- Source `CPU::simulate` (cpu.cpp lines 27-45).  `is_halting()` is declared in
`cpu.hpp` (outside `src/`); modelled from the spec (§4.2: the quiescent
branch is taken exactly when `asleep`), it returns the `asleep` flag. -/
def simulate (H : Handlers) (CB : CbReg) (console : Console) (s : CPU) :
    CPU :=
  if s.asleep = false then
    let op := read8 s s.pc
    let ex := execute H CB console { s with cur_opcode := op } op
    handle_interrupts (incr_cycles ex.1 ex.2)
  else
    handle_interrupts (incr_cycles s 4)

/-! ### Concrete oracle instances used by witnesses and counterexamples -/

/-- Modelled from the spec: a handler family in which every group behaves
like the one-byte no-op handlers of `instructions.cpp` (NOP and the unused
opcodes): no state change, 4 T-states (the cycles implicit in the opcode
fetch, spec §4.2f).  It is only ever applied to opcodes whose handlers the
spec describes as doing exactly that. -/
def nopHandlers : Handlers := fun _ _ s => (s, 4)

/-- Modelled from the spec: the DI/EI handler group of `instructions.cpp`
(spec §4.4: the EI entry point calls `enable_interrupts`, the DI entry
point `disable_interrupts`; both are one-byte, 4 T-states).  Opcode 0xFB is
EI and 0xF3 is DI.  Every other group behaves as a one-byte no-op; the
theorems below apply it to other groups only on NOP bytes. -/
def diEiHandlers : Handlers := fun g op s =>
  if g = Instr.DI_EI then
    (if op = 0xfb then enable_interrupts s else disable_interrupts s, 4)
  else (s, 4)

/-- A breakpoint-callback registry resolving every identifier to the
do-nothing callback. -/
def cbId : CbReg := fun _ _ s => s

/-- A console interaction in which the user immediately resumes. -/
def idConsole : Console := fun s => s

/-- A console interaction in which the user enters the quit command, whose
effect is `CPU::stop()` (cpu.cpp part 2, lines 333-336). -/
def quitConsole : Console := fun s => stop s

/-- A baseline concrete state: boot register values, awake, running, IME
off, no pending toggles, empty breakpoint table, zeroed memory and I/O. -/
def base : CPU :=
  { af := 0x01b0, bc := 0x0013, de := 0x00d8, hl := 0x014d, sp := 0xfffe,
    pc := 0x100, cycles_total := 0, cur_opcode := 0, running := true,
    asleep := false, haltbug := 0, ime := false, intr_pending := 0,
    brk := false, break_steps_cnt := 0, break_steps := 0, breakpoints := [],
    mem := fun _ => 0, regIF := 0, regIE := 0, verbose := false,
    last_flags := 0xb0 }

/-! ### Field-preservation lemmas -/

theorem cd_sp (s : CPU) : (intr_countdown s).sp = s.sp := by
  unfold intr_countdown; split_ifs <;> rfl

theorem cd_pc (s : CPU) : (intr_countdown s).pc = s.pc := by
  unfold intr_countdown; split_ifs <;> rfl

theorem cd_mem (s : CPU) : (intr_countdown s).mem = s.mem := by
  unfold intr_countdown; split_ifs <;> rfl

theorem cd_regIF (s : CPU) : (intr_countdown s).regIF = s.regIF := by
  unfold intr_countdown; split_ifs <;> rfl

theorem cd_regIE (s : CPU) : (intr_countdown s).regIE = s.regIE := by
  unfold intr_countdown; split_ifs <;> rfl

theorem cd_cycles (s : CPU) :
    (intr_countdown s).cycles_total = s.cycles_total := by
  unfold intr_countdown; split_ifs <;> rfl

theorem cd_running (s : CPU) : (intr_countdown s).running = s.running := by
  unfold intr_countdown; split_ifs <;> rfl

theorem cd_asleep (s : CPU) : (intr_countdown s).asleep = s.asleep := by
  unfold intr_countdown; split_ifs <;> rfl

theorem cd_mask (s : CPU) :
    interrupt_mask (intr_countdown s) = interrupt_mask s := by
  unfold interrupt_mask; rw [cd_regIF, cd_regIE]

/-- The IME value after the countdown, as a function of the pending counter
and the old IME alone. -/
theorem cd_ime (s : CPU) :
    (intr_countdown s).ime =
      if 0 < s.intr_pending then
        (if s.intr_pending - 1 = 0 then true else s.ime)
      else if s.intr_pending < 0 then
        (if s.intr_pending + 1 = 0 then false else s.ime)
      else s.ime := by
  unfold intr_countdown; split_ifs <;> rfl

theorem cd_ime_congr (s t : CPU) (hp : s.intr_pending = t.intr_pending)
    (hi : s.ime = t.ime) : (intr_countdown s).ime = (intr_countdown t).ime := by
  rw [cd_ime, cd_ime, hp, hi]

theorem hb_pc (s : CPU) : (haltbug_step s).pc = s.pc := by
  unfold haltbug_step; split_ifs <;> rfl

theorem hb_cycles (s : CPU) :
    (haltbug_step s).cycles_total = s.cycles_total := by
  unfold haltbug_step; split_ifs <;> rfl

theorem hb_asleep (s : CPU) : (haltbug_step s).asleep = s.asleep := by
  unfold haltbug_step; split_ifs <;> rfl

theorem hb_running (s : CPU) : (haltbug_step s).running = s.running := by
  unfold haltbug_step; split_ifs <;> rfl

theorem hb_ime (s : CPU) : (haltbug_step s).ime = s.ime := by
  unfold haltbug_step; split_ifs <;> rfl

theorem hb_pending (s : CPU) :
    (haltbug_step s).intr_pending = s.intr_pending := by
  unfold haltbug_step; split_ifs <;> rfl

/-- When IME is off or no enabled interrupt is pending, the dispatch half
does nothing. -/
theorem intr_service_no (s : CPU)
    (h : ¬(s.ime = true ∧ interrupt_mask s ≠ 0)) : intr_service s = s := by
  unfold intr_service; rw [if_neg h]

/-! ### Little-endian push read-back -/

theorem read8_write16_low (m : Nat → Nat) (a v : Nat) (ha : a < 65536) :
    write16 m a v (a % 65536) = v % 256 := by
  unfold write16 write8
  have h1 : a % 65536 = a := Nat.mod_eq_of_lt ha
  have h2 : a ≠ (a + 1) % 65536 := by omega
  rw [h1]
  simp [h2]

theorem read8_write16_high (m : Nat → Nat) (a v : Nat) :
    write16 m a v (((a + 1) % 65536) % 65536) = v / 256 % 256 := by
  have hmm : ((a + 1) % 65536) % 65536 = (a + 1) % 65536 :=
    Nat.mod_mod_of_dvd _ dvd_rfl
  rw [hmm]
  unfold write16 write8
  simp

/-! ### The accepted-interrupt state, one lemma per priority level -/

theorem mask_lt (s : CPU) : interrupt_mask s < 32 :=
  lt_of_le_of_lt Nat.and_le_right (by norm_num)

theorem mask_bits_cover : ∀ m : Fin 32, m.val &&& 0x1 = 0 → m.val &&& 0x2 = 0 →
    m.val &&& 0x4 = 0 → m.val &&& 0x8 = 0 → m.val &&& 0x10 = 0 → m.val = 0 := by
  decide

/-- Field lemmas for `haltbug_step` results that the dispatch contract
needs in addition to the ones above. -/
theorem hb_sp (s : CPU) : (haltbug_step s).sp = s.sp := by
  unfold haltbug_step; split_ifs <;> rfl

theorem hb_mem (s : CPU) : (haltbug_step s).mem = s.mem := by
  unfold haltbug_step; split_ifs <;> rfl

theorem hb_regIF (s : CPU) : (haltbug_step s).regIF = s.regIF := by
  unfold haltbug_step; split_ifs <;> rfl

/-- Field lemmas for `service_start`. -/
theorem ss_ime (s : CPU) : (service_start s).ime = false := by
  unfold service_start; rfl

theorem ss_asleep (s : CPU) : (service_start s).asleep = false := by
  unfold service_start; rfl

theorem ss_pending (s : CPU) : (service_start s).intr_pending = 0 := by
  unfold service_start; rfl

theorem ss_running (s : CPU) : (service_start s).running = s.running := by
  unfold service_start; rfl

theorem ss_cycles (s : CPU) : (service_start s).cycles_total = s.cycles_total := by
  unfold service_start; rfl

theorem ss_sp (s : CPU) : (service_start s).sp = s.sp := by
  unfold service_start; rfl

theorem ss_pc (s : CPU) : (service_start s).pc = s.pc := by
  unfold service_start; rfl

theorem ss_regIF (s : CPU) : (service_start s).regIF = s.regIF := by
  unfold service_start; rfl

theorem ss_mem (s : CPU) : (service_start s).mem = s.mem := by
  unfold service_start; rfl

/-- Field lemmas for `io_interrupt` (accepting one interrupt): it wakes
nothing by itself, decrements SP by 2 mod 2^16, pushes PC, jumps to the
vector and clears the IF bit. -/
theorem io_ime (s : CPU) (b v : Nat) : (io_interrupt s b v).ime = s.ime := by
  unfold io_interrupt push_and_jump; rfl

theorem io_asleep (s : CPU) (b v : Nat) :
    (io_interrupt s b v).asleep = s.asleep := by
  unfold io_interrupt push_and_jump; rfl

theorem io_pending (s : CPU) (b v : Nat) :
    (io_interrupt s b v).intr_pending = s.intr_pending := by
  unfold io_interrupt push_and_jump; rfl

theorem io_running (s : CPU) (b v : Nat) :
    (io_interrupt s b v).running = s.running := by
  unfold io_interrupt push_and_jump; rfl

theorem io_cycles (s : CPU) (b v : Nat) :
    (io_interrupt s b v).cycles_total = s.cycles_total := by
  unfold io_interrupt push_and_jump; rfl

theorem io_sp (s : CPU) (b v : Nat) :
    (io_interrupt s b v).sp = (s.sp + 65534) % 65536 := by
  unfold io_interrupt push_and_jump; rfl

theorem io_pc (s : CPU) (b v : Nat) : (io_interrupt s b v).pc = v := by
  unfold io_interrupt push_and_jump; rfl

theorem io_regIF (s : CPU) (b v : Nat) :
    (io_interrupt s b v).regIF = s.regIF &&& (255 - b) := by
  unfold io_interrupt push_and_jump; rfl

theorem io_mem (s : CPU) (b v : Nat) :
    (io_interrupt s b v).mem
      = write16 s.mem ((s.sp + 65534) % 65536) s.pc := by
  unfold io_interrupt push_and_jump; rfl

/-- Unfolding lemma for `read8`. -/
theorem read8_def (t : CPU) (a : Nat) : read8 t a = t.mem (a % 65536) := rfl

/-- The full post-state contract of the dispatch half when an interrupt is
accepted: IME cleared, awake, pending toggle cleared, running and cycle
counter untouched, PC pushed little-endian at the decremented SP, and the
PC and IF register set according to the highest-priority pending source. -/
theorem service_post (s : CPU) (h1 : s.ime = true)
    (h2 : interrupt_mask s ≠ 0) :
    (after_service s).ime = false ∧
    (after_service s).asleep = false ∧
    (after_service s).intr_pending = 0 ∧
    (after_service s).running = s.running ∧
    (after_service s).cycles_total = s.cycles_total ∧
    (after_service s).sp = (s.sp + 65534) % 65536 ∧
    read8 (after_service s) ((s.sp + 65534) % 65536) = s.pc % 256 ∧
    read8 (after_service s) (((s.sp + 65534) % 65536 + 1) % 65536)
      = s.pc / 256 % 256 ∧
    (interrupt_mask s &&& 0x1 ≠ 0 →
      (after_service s).pc = 0x40 ∧
      (after_service s).regIF = s.regIF &&& 254) ∧
    (interrupt_mask s &&& 0x1 = 0 → interrupt_mask s &&& 0x2 ≠ 0 →
      (after_service s).pc = 0x48 ∧
      (after_service s).regIF = s.regIF &&& 253) ∧
    (interrupt_mask s &&& 0x1 = 0 → interrupt_mask s &&& 0x2 = 0 →
      interrupt_mask s &&& 0x4 ≠ 0 →
      (after_service s).pc = 0x50 ∧
      (after_service s).regIF = s.regIF &&& 251) ∧
    (interrupt_mask s &&& 0x1 = 0 → interrupt_mask s &&& 0x2 = 0 →
      interrupt_mask s &&& 0x4 = 0 → interrupt_mask s &&& 0x8 ≠ 0 →
      (after_service s).pc = 0x58 ∧
      (after_service s).regIF = s.regIF &&& 247) ∧
    (interrupt_mask s &&& 0x1 = 0 → interrupt_mask s &&& 0x2 = 0 →
      interrupt_mask s &&& 0x4 = 0 → interrupt_mask s &&& 0x8 = 0 →
      interrupt_mask s &&& 0x10 ≠ 0 →
      (after_service s).pc = 0x60 ∧
      (after_service s).regIF = s.regIF &&& 239) := by
  have hsplt : (s.sp + 65534) % 65536 < 65536 := Nat.mod_lt _ (by norm_num)
  have e1 : intr_service s = dispatch (interrupt_mask s) (service_start s) :=
    if_pos ⟨h1, h2⟩
  unfold after_service
  by_cases hb1 : interrupt_mask s &&& 0x1 = 0
  · by_cases hb2 : interrupt_mask s &&& 0x2 = 0
    · by_cases hb4 : interrupt_mask s &&& 0x4 = 0
      · by_cases hb8 : interrupt_mask s &&& 0x8 = 0
        · by_cases hb16 : interrupt_mask s &&& 0x10 = 0
          · exact absurd
              (mask_bits_cover ⟨interrupt_mask s, mask_lt s⟩
                hb1 hb2 hb4 hb8 hb16) h2
          · have e2 : dispatch (interrupt_mask s) (service_start s)
                = io_interrupt (service_start s) 0x10 0x60 := by
              unfold dispatch
              rw [if_neg (by simpa using hb1), if_neg (by simpa using hb2),
                if_neg (by simpa using hb4), if_neg (by simpa using hb8),
                if_pos hb16]
            have e := e1.trans e2
            refine ⟨?_, ?_, ?_, ?_, ?_, ?_, ?_, ?_,
              fun h => absurd hb1 h,
              fun _ h => absurd hb2 h,
              fun _ _ h => absurd hb4 h,
              fun _ _ _ h => absurd hb8 h,
              fun _ _ _ _ _ => ⟨?_, ?_⟩⟩
            · rw [hb_ime, e, io_ime, ss_ime]
            · rw [hb_asleep, e, io_asleep, ss_asleep]
            · rw [hb_pending, e, io_pending, ss_pending]
            · rw [hb_running, e, io_running, ss_running]
            · rw [hb_cycles, e, io_cycles, ss_cycles]
            · rw [hb_sp, e, io_sp, ss_sp]
            · rw [read8_def, hb_mem, e, io_mem, ss_mem, ss_sp, ss_pc]
              exact read8_write16_low s.mem ((s.sp + 65534) % 65536) s.pc hsplt
            · rw [read8_def, hb_mem, e, io_mem, ss_mem, ss_sp, ss_pc]
              exact read8_write16_high s.mem ((s.sp + 65534) % 65536) s.pc
            · rw [hb_pc, e, io_pc]
            · rw [hb_regIF, e, io_regIF, ss_regIF]
        · have e2 : dispatch (interrupt_mask s) (service_start s)
              = io_interrupt (service_start s) 0x8 0x58 := by
            unfold dispatch
            rw [if_neg (by simpa using hb1), if_neg (by simpa using hb2),
              if_neg (by simpa using hb4), if_pos hb8]
          have e := e1.trans e2
          refine ⟨?_, ?_, ?_, ?_, ?_, ?_, ?_, ?_,
            fun h => absurd hb1 h,
            fun _ h => absurd hb2 h,
            fun _ _ h => absurd hb4 h,
            fun _ _ _ _ => ⟨?_, ?_⟩,
            fun _ _ _ h _ => absurd h hb8⟩
          · rw [hb_ime, e, io_ime, ss_ime]
          · rw [hb_asleep, e, io_asleep, ss_asleep]
          · rw [hb_pending, e, io_pending, ss_pending]
          · rw [hb_running, e, io_running, ss_running]
          · rw [hb_cycles, e, io_cycles, ss_cycles]
          · rw [hb_sp, e, io_sp, ss_sp]
          · rw [read8_def, hb_mem, e, io_mem, ss_mem, ss_sp, ss_pc]
            exact read8_write16_low s.mem ((s.sp + 65534) % 65536) s.pc hsplt
          · rw [read8_def, hb_mem, e, io_mem, ss_mem, ss_sp, ss_pc]
            exact read8_write16_high s.mem ((s.sp + 65534) % 65536) s.pc
          · rw [hb_pc, e, io_pc]
          · rw [hb_regIF, e, io_regIF, ss_regIF]
      · have e2 : dispatch (interrupt_mask s) (service_start s)
            = io_interrupt (service_start s) 0x4 0x50 := by
          unfold dispatch
          rw [if_neg (by simpa using hb1), if_neg (by simpa using hb2),
            if_pos hb4]
        have e := e1.trans e2
        refine ⟨?_, ?_, ?_, ?_, ?_, ?_, ?_, ?_,
          fun h => absurd hb1 h,
          fun _ h => absurd hb2 h,
          fun _ _ _ => ⟨?_, ?_⟩,
          fun _ _ h _ => absurd h hb4,
          fun _ _ h _ _ => absurd h hb4⟩
        · rw [hb_ime, e, io_ime, ss_ime]
        · rw [hb_asleep, e, io_asleep, ss_asleep]
        · rw [hb_pending, e, io_pending, ss_pending]
        · rw [hb_running, e, io_running, ss_running]
        · rw [hb_cycles, e, io_cycles, ss_cycles]
        · rw [hb_sp, e, io_sp, ss_sp]
        · rw [read8_def, hb_mem, e, io_mem, ss_mem, ss_sp, ss_pc]
          exact read8_write16_low s.mem ((s.sp + 65534) % 65536) s.pc hsplt
        · rw [read8_def, hb_mem, e, io_mem, ss_mem, ss_sp, ss_pc]
          exact read8_write16_high s.mem ((s.sp + 65534) % 65536) s.pc
        · rw [hb_pc, e, io_pc]
        · rw [hb_regIF, e, io_regIF, ss_regIF]
    · have e2 : dispatch (interrupt_mask s) (service_start s)
          = io_interrupt (service_start s) 0x2 0x48 := by
        unfold dispatch
        rw [if_neg (by simpa using hb1), if_pos hb2]
      have e := e1.trans e2
      refine ⟨?_, ?_, ?_, ?_, ?_, ?_, ?_, ?_,
        fun h => absurd hb1 h,
        fun _ _ => ⟨?_, ?_⟩,
        fun _ h _ => absurd h hb2,
        fun _ h _ _ => absurd h hb2,
        fun _ h _ _ _ => absurd h hb2⟩
      · rw [hb_ime, e, io_ime, ss_ime]
      · rw [hb_asleep, e, io_asleep, ss_asleep]
      · rw [hb_pending, e, io_pending, ss_pending]
      · rw [hb_running, e, io_running, ss_running]
      · rw [hb_cycles, e, io_cycles, ss_cycles]
      · rw [hb_sp, e, io_sp, ss_sp]
      · rw [read8_def, hb_mem, e, io_mem, ss_mem, ss_sp, ss_pc]
        exact read8_write16_low s.mem ((s.sp + 65534) % 65536) s.pc hsplt
      · rw [read8_def, hb_mem, e, io_mem, ss_mem, ss_sp, ss_pc]
        exact read8_write16_high s.mem ((s.sp + 65534) % 65536) s.pc
      · rw [hb_pc, e, io_pc]
      · rw [hb_regIF, e, io_regIF, ss_regIF]
  · have e2 : dispatch (interrupt_mask s) (service_start s)
        = io_interrupt (service_start s) 0x1 0x40 := by
      unfold dispatch
      rw [if_pos hb1]
    have e := e1.trans e2
    refine ⟨?_, ?_, ?_, ?_, ?_, ?_, ?_, ?_,
      fun _ => ⟨?_, ?_⟩,
      fun h _ => absurd h hb1,
      fun h _ _ => absurd h hb1,
      fun h _ _ _ => absurd h hb1,
      fun h _ _ _ _ => absurd h hb1⟩
    · rw [hb_ime, e, io_ime, ss_ime]
    · rw [hb_asleep, e, io_asleep, ss_asleep]
    · rw [hb_pending, e, io_pending, ss_pending]
    · rw [hb_running, e, io_running, ss_running]
    · rw [hb_cycles, e, io_cycles, ss_cycles]
    · rw [hb_sp, e, io_sp, ss_sp]
    · rw [read8_def, hb_mem, e, io_mem, ss_mem, ss_sp, ss_pc]
      exact read8_write16_low s.mem ((s.sp + 65534) % 65536) s.pc hsplt
    · rw [read8_def, hb_mem, e, io_mem, ss_mem, ss_sp, ss_pc]
      exact read8_write16_high s.mem ((s.sp + 65534) % 65536) s.pc
    · rw [hb_pc, e, io_pc]
    · rw [hb_regIF, e, io_regIF, ss_regIF]

/-! ### Step-level helper lemmas -/

theorem bt_running (s : CPU) : (break_time s).1.running = s.running := by
  unfold break_time; split_ifs <;> rfl

theorem bt_cycles (s : CPU) :
    (break_time s).1.cycles_total = s.cycles_total := by
  unfold break_time; split_ifs <;> rfl

theorem mask_incr (s : CPU) (n : Nat) :
    interrupt_mask (incr_cycles s n) = interrupt_mask s := rfl

/-- Dispatching an interrupt never changes the cycle counter (the I/O
unit's own accepted-interrupt cycle accounting is outside the modelled
core). -/
theorem service_cycles (s : CPU) :
    (intr_service s).cycles_total = s.cycles_total := by
  unfold intr_service
  split_ifs with h
  · unfold dispatch
    split_ifs <;> simp only [io_cycles, ss_cycles]
  · rfl

/-- Dispatching an interrupt never changes the running flag. -/
theorem service_running (s : CPU) :
    (intr_service s).running = s.running := by
  unfold intr_service
  split_ifs with h
  · unfold dispatch
    split_ifs <;> simp only [io_running, ss_running]
  · rfl

/-- Lemma `handle_interrupts` never changes the cycle counter. -/
theorem handle_cycles (s : CPU) :
    (handle_interrupts s).cycles_total = s.cycles_total :=
  (hb_cycles _).trans ((service_cycles _).trans (cd_cycles s))

/-- Lemma `handle_interrupts` never changes the running flag. -/
theorem handle_running (s : CPU) :
    (handle_interrupts s).running = s.running :=
  (hb_running _).trans ((service_running _).trans (cd_running s))

/-- When, after the countdown, IME is off or no enabled interrupt is
pending, `handle_interrupts` leaves PC, the cycle counter and the sleep
flag untouched. -/
theorem handle_no_dispatch (s : CPU)
    (hno : ¬((intr_countdown s).ime = true ∧ interrupt_mask s ≠ 0)) :
    (handle_interrupts s).pc = s.pc ∧
    (handle_interrupts s).cycles_total = s.cycles_total ∧
    (handle_interrupts s).asleep = s.asleep := by
  have hno2 : ¬((intr_countdown s).ime = true ∧
      interrupt_mask (intr_countdown s) ≠ 0) := by
    rw [cd_mask]; exact hno
  have e := intr_service_no _ hno2
  exact ⟨(hb_pc _).trans ((congrArg CPU.pc e).trans (cd_pc s)),
    (hb_cycles _).trans ((congrArg CPU.cycles_total e).trans (cd_cycles s)),
    (hb_asleep _).trans ((congrArg CPU.asleep e).trans (cd_asleep s))⟩

/-- With the one-shot flag down and no periodic break armed, `break_time`
reports no break and changes nothing. -/
theorem break_time_idle (s : CPU) (h1 : s.brk = false)
    (h2 : s.break_steps_cnt = 0) : break_time s = (s, false) := by
  unfold break_time
  simp [h1, h2]

/-- When a console interaction preserves the running flag and the CPU is
running, the dispatch prologue never requests the quit-return. -/
theorem prologue_no_quit (CB : CbReg) (console : Console) (s : CPU)
    (op : Nat) (hr : s.running = true)
    (hcon2 : ∀ t, (console t).running = t.running) :
    (exec_prologue CB console s op).2 = false := by
  simp only [exec_prologue]
  split_ifs with h
  · have : (console { (break_time s).1 with brk := false }).running = true := by
      rw [hcon2]
      exact (bt_running s).trans hr
    simp [this]
  · rcases find_bp (break_time s).1.breakpoints (break_time s).1.pc with _ | bp
    · rfl
    · rfl

/-- The prologue never decreases the cycle counter, provided neither the
console nor the breakpoint callbacks do. -/
theorem prologue_cycles (CB : CbReg) (console : Console) (s : CPU) (op : Nat)
    (hCB : ∀ i o t, t.cycles_total ≤ (CB i o t).cycles_total)
    (hcon1 : ∀ t, t.cycles_total ≤ (console t).cycles_total) :
    s.cycles_total ≤ (exec_prologue CB console s op).1.cycles_total := by
  simp only [exec_prologue]
  split_ifs with h
  · calc s.cycles_total
        = ({ (break_time s).1 with brk := false }).cycles_total :=
          (bt_cycles s).symm
      _ ≤ _ := hcon1 _
  · rcases find_bp (break_time s).1.breakpoints (break_time s).1.pc with _ | bp
    · exact le_of_eq (bt_cycles s).symm
    · calc s.cycles_total = (break_time s).1.cycles_total :=
          (bt_cycles s).symm
        _ ≤ _ := hCB _ _ _

/-- The handler-independent shape of `exec_main`'s returned cycle count. -/
theorem exec_main_ret (H : Handlers) (s : CPU) (op : Nat) :
    (exec_main H s op).2
      = (H (decode op) op { s with pc := (s.pc + 1) % 65536 }).2 := by
  simp only [exec_main]

/-- Source `exec_main` never decreases the cycle counter, provided the handlers do
not. -/
theorem exec_main_cycles_le (H : Handlers) (s : CPU) (op : Nat)
    (hH1 : ∀ g o t, t.cycles_total ≤ ((H g o t).1).cycles_total) :
    s.cycles_total ≤ (exec_main H s op).1.cycles_total := by
  simp only [exec_main]
  split_ifs with h
  · exact hH1 (decode op) op { s with pc := (s.pc + 1) % 65536 }
  · exact hH1 (decode op) op { s with pc := (s.pc + 1) % 65536 }

/-- When the handler for the decoded group leaves the state unchanged and
returns `c` cycles, `exec_main` advances PC by one and touches nothing else
relevant. -/
theorem exec_main_plain (H : Handlers) (s : CPU) (op c : Nat)
    (hdec : ∀ t, H (decode op) op t = (t, c)) :
    (exec_main H s op).1.pc = (s.pc + 1) % 65536 ∧
    (exec_main H s op).1.cycles_total = s.cycles_total ∧
    (exec_main H s op).2 = c ∧
    (exec_main H s op).1.ime = s.ime ∧
    (exec_main H s op).1.intr_pending = s.intr_pending ∧
    (exec_main H s op).1.regIF = s.regIF ∧
    (exec_main H s op).1.regIE = s.regIE ∧
    (exec_main H s op).1.asleep = s.asleep := by
  simp only [exec_main]
  rw [hdec]
  split_ifs <;> exact ⟨rfl, rfl, rfl, rfl, rfl, rfl, rfl, rfl⟩

/-- Without a break, without a breakpoint at PC and without a quit, a
simulate step is fetch, `exec_main`, cycle accounting, interrupt
handling. -/
theorem simulate_plain (H : Handlers) (CB : CbReg) (console : Console)
    (s : CPU) (op : Nat) (ha : s.asleep = false) (hb : s.brk = false)
    (hc : s.break_steps_cnt = 0)
    (hd : find_bp s.breakpoints s.pc = none) (he : read8 s s.pc = op) :
    simulate H CB console s =
      handle_interrupts
        (incr_cycles (exec_main H { s with cur_opcode := op } op).1
          (exec_main H { s with cur_opcode := op } op).2) := by
  unfold simulate
  rw [if_pos ha, he]
  have hbt : break_time { s with cur_opcode := op } =
      ({ s with cur_opcode := op }, false) := break_time_idle _ hb hc
  have hpr : exec_prologue CB console { s with cur_opcode := op } op =
      ({ s with cur_opcode := op }, false) := by
    unfold exec_prologue
    rw [hbt]
    simp [hd]
  simp only [execute]
  rw [hpr]
  rfl


/-! ### Concrete states for witnesses and counterexamples -/

/-- Awake state with the post-HALT counter armed (as two steps after a HALT
executed with a pending interrupt and IME off), NOP at PC. -/
def c2state : CPU := { base with haltbug := 2 }

/-- EI at 0x0100, DI at 0x0101, NOP afterwards; no enabled interrupts. -/
def c3state (b : Bool) : CPU :=
  { base with
    ime := b
    mem := fun a => if a = 0x100 then 0xfb else if a = 0x101 then 0xf3 else 0 }

/-- One simulate step under the spec-modelled DI/EI handler group. -/
def diEiStep (s : CPU) : CPU := simulate diEiHandlers cbId idConsole s

/-- Unused opcode 0xDB at PC. -/
def c5state : CPU := { base with mem := fun a => if a = 0x100 then 0xdb else 0 }

/-- A state carrying sleep/IME/toggle/HALT-bug/opcode residue, about to be
reset. -/
def c6state : CPU :=
  { base with asleep := true, ime := true, intr_pending := 2, haltbug := 2,
              cur_opcode := 0x76 }

/-- Halted with VBlank pending and enabled but IME off. -/
def c7state : CPU := { base with asleep := true, regIF := 1, regIE := 1 }

/-- Halted with VBlank pending and enabled and IME on. -/
def c7wake : CPU := { base with asleep := true, ime := true, regIF := 1, regIE := 1 }

/-- Running state whose one-shot break flag is armed. -/
def c8state : CPU := { base with brk := true }

/-- A breakpoint with a non-trivial step period and verbose flag. -/
def c9bp : Breakpoint := { cb := 0, break_on_steps := 5, verbose_instr := true }

/-- A state with that breakpoint registered at the current PC. -/
def c9state : CPU := { base with breakpoints := [(0x100, c9bp)] }

/-- Running with IME on, VBlank pending and enabled, break armed. -/
def c10state : CPU :=
  { base with ime := true, regIF := 1, regIE := 0x1f, brk := true }

/-- IME on, VBlank pending and enabled. -/
def wc1 : CPU := { base with ime := true, regIF := 0x01, regIE := 0x1f, pc := 0x1234 }

/-! ### The claims -/

/-- C1: if, at the interrupt-handling point of a simulate step (entry to the
dispatch half of `handle_interrupts`, after the IME-toggle countdown), IME is
true and the pending-and-enabled mask `IF & IE & 0x1F` is non-zero, that step
services exactly one interrupt — the highest-priority pending one in the
fixed order VBlank (0x01) > LCD STAT (0x02) > Timer (0x04) > Serial (0x08) >
Joypad (0x10) — and afterwards `ime = false`, `asleep = false`, the pending
IME toggle is cleared, PC equals the corresponding vector
(0x40, 0x48, 0x50, 0x58, 0x60), exactly the serviced IF bit is cleared, and
the pre-interrupt PC is pushed little-endian at the SP decremented by 2
(mod 2^16).  `handle_interrupts` is the final phase of every simulate
step, so these are the step's post-conditions. -/
theorem c1_interrupt_service (s : CPU)
    (h1 : (intr_countdown s).ime = true)
    (h2 : interrupt_mask s ≠ 0) :
    (handle_interrupts s).ime = false ∧
    (handle_interrupts s).asleep = false ∧
    (handle_interrupts s).intr_pending = 0 ∧
    (handle_interrupts s).sp = (s.sp + 65534) % 65536 ∧
    read8 (handle_interrupts s) ((s.sp + 65534) % 65536) = s.pc % 256 ∧
    read8 (handle_interrupts s) (((s.sp + 65534) % 65536 + 1) % 65536)
      = s.pc / 256 % 256 ∧
    (interrupt_mask s &&& 0x1 ≠ 0 →
      (handle_interrupts s).pc = 0x40 ∧
      (handle_interrupts s).regIF = s.regIF &&& 254) ∧
    (interrupt_mask s &&& 0x1 = 0 → interrupt_mask s &&& 0x2 ≠ 0 →
      (handle_interrupts s).pc = 0x48 ∧
      (handle_interrupts s).regIF = s.regIF &&& 253) ∧
    (interrupt_mask s &&& 0x1 = 0 → interrupt_mask s &&& 0x2 = 0 →
      interrupt_mask s &&& 0x4 ≠ 0 →
      (handle_interrupts s).pc = 0x50 ∧
      (handle_interrupts s).regIF = s.regIF &&& 251) ∧
    (interrupt_mask s &&& 0x1 = 0 → interrupt_mask s &&& 0x2 = 0 →
      interrupt_mask s &&& 0x4 = 0 → interrupt_mask s &&& 0x8 ≠ 0 →
      (handle_interrupts s).pc = 0x58 ∧
      (handle_interrupts s).regIF = s.regIF &&& 247) ∧
    (interrupt_mask s &&& 0x1 = 0 → interrupt_mask s &&& 0x2 = 0 →
      interrupt_mask s &&& 0x4 = 0 → interrupt_mask s &&& 0x8 = 0 →
      interrupt_mask s &&& 0x10 ≠ 0 →
      (handle_interrupts s).pc = 0x60 ∧
      (handle_interrupts s).regIF = s.regIF &&& 239) := by
  have h2b : interrupt_mask (intr_countdown s) ≠ 0 := by
    rw [cd_mask]; exact h2
  have hp := service_post (intr_countdown s) h1 h2b
  rw [cd_mask, cd_sp, cd_pc, cd_regIF] at hp
  obtain ⟨ha, hb, hc, -, -, hd, he, hf, h1a, h2a, h3a, h4a, h5a⟩ := hp
  exact ⟨ha, hb, hc, hd, he, hf, h1a, h2a, h3a, h4a, h5a⟩

/-- Witness for C1 at a concrete state: IME on, only VBlank pending. -/
theorem c1_interrupt_service_witness :
    (handle_interrupts wc1).ime = false ∧
    (handle_interrupts wc1).asleep = false ∧
    (handle_interrupts wc1).pc = 0x40 := by
  have hp := c1_interrupt_service wc1 (by decide) (by decide)
  exact ⟨hp.1, hp.2.1, (hp.2.2.2.2.2.2.1 (by decide)).1⟩

/-- C2: the code never suppresses the PC increment.  With
`halt_bug_skip = 2` and a NOP (whose handler does not move PC) at
PC = 0x0100, the step still advances PC to 0x0101; the counter is merely
decremented by `handle_interrupts`.  The claimed suppression (the byte after
HALT executed twice) is absent from `CPU::execute`, whose `registers().pc += 1`
(cpu.cpp line 77) is unconditional. -/
theorem c2_haltbug_never_suppresses_pc :
    c2state.haltbug = 2 ∧ c2state.asleep = false ∧
    read8 c2state c2state.pc = 0 ∧
    (simulate nopHandlers cbId idConsole c2state).pc = 0x101 ∧
    (simulate nopHandlers cbId idConsole c2state).haltbug = 1 := by decide

/-- C3 counterexample: starting from IME = true with EI;DI;NOP in memory and
no pending interrupts, IME is still true when DI retires but becomes false
one instruction later, so EI-then-DI does not leave IME unchanged
thereafter. -/
theorem c3_ei_di_counterexample :
    (c3state true).ime = true ∧
    (diEiStep (diEiStep (c3state true))).ime = true ∧
    (diEiStep (diEiStep (diEiStep (c3state true)))).ime = false := by decide

/-- C3 amended: executing EI then DI as adjacent instructions (no enabled
interrupt pending) leaves IME unchanged from its pre-EI value at the moment
DI retires, for every initial IME; but the DI toggle, having overwritten the
EI countdown, expires one instruction later, forcing IME to false (with the
toggle idle) thereafter — so IME stays at its initial value only when that
value was false. -/
theorem c3_ei_di_amended (b : Bool) :
    (diEiStep (c3state b)).ime = b ∧
    (diEiStep (diEiStep (c3state b))).ime = b ∧
    (diEiStep (diEiStep (diEiStep (c3state b)))).ime = false ∧
    (diEiStep (diEiStep (diEiStep (c3state b)))).intr_pending = 0 := by
  cases b <;> decide

/-- C4: the decoder's conditional-CALL rule `(op & 0xCD) == 0xCD` fails to
match the real conditional CALL opcodes 0xCC, 0xD4, 0xDC (they fall through
to MISSING, whose handler aborts) while matching the unused opcodes
0xDD, 0xED, 0xFD as CALL; only 0xCD and 0xC4 of the CALL family decode to
CALL. -/
theorem c4_call_decode_gap :
    decode 0xcd = Instr.CALL ∧ decode 0xc4 = Instr.CALL ∧
    decode 0xcc = Instr.MISSING ∧ decode 0xd4 = Instr.MISSING ∧
    decode 0xdc = Instr.MISSING ∧ decode 0xdd = Instr.CALL ∧
    decode 0xed = Instr.CALL ∧ decode 0xfd = Instr.CALL := by decide

/-- C5 counterexample: opcode 0xD3, claimed to decode to the unused no-op
group, decodes to MISSING. -/
theorem c5_unused_counterexample :
    decode 0xd3 = Instr.MISSING ∧ decode 0xd3 ≠ Instr.UNUSED_OPS := by decide

/-- C5 amended: of the eleven claimed unused opcodes only
0xDB, 0xEB, 0xEC, 0xE4, 0xFC, 0xF4 decode to the unused no-op group
(0xD3, 0xE3 decode to MISSING; 0xDD, 0xED, 0xFD are captured by the CALL
rule); a simulate step fetching one of the six (spec-modelled no-op handler,
no break, no breakpoint at PC, no interrupt accepted) completes with PC
incremented by 1 and `cycles_total` increased by 4. -/
theorem c5_unused_amended (H : Handlers) (CB : CbReg) (console : Console)
    (s : CPU) (op : Nat)
    (hop : op = 0xdb ∨ op = 0xeb ∨ op = 0xec ∨ op = 0xe4 ∨ op = 0xfc ∨
      op = 0xf4)
    (hH : ∀ o t, H Instr.UNUSED_OPS o t = (t, 4))
    (ha : s.asleep = false) (hb : s.brk = false) (hc : s.break_steps_cnt = 0)
    (hd : find_bp s.breakpoints s.pc = none) (he : read8 s s.pc = op)
    (hf : ¬((intr_countdown s).ime = true ∧ interrupt_mask s ≠ 0)) :
    decode op = Instr.UNUSED_OPS ∧
    decode 0xd3 = Instr.MISSING ∧ decode 0xe3 = Instr.MISSING ∧
    decode 0xdd = Instr.CALL ∧ decode 0xed = Instr.CALL ∧
    decode 0xfd = Instr.CALL ∧
    (simulate H CB console s).pc = (s.pc + 1) % 65536 ∧
    (simulate H CB console s).cycles_total = s.cycles_total + 4 := by
  have hdec : decode op = Instr.UNUSED_OPS := by
    rcases hop with h | h | h | h | h | h <;> subst h <;> decide
  have hH2 : ∀ t, H (decode op) op t = (t, 4) := by
    rw [hdec]; exact fun t => hH op t
  have hsim := simulate_plain H CB console s op ha hb hc hd he
  obtain ⟨hpc, hcy, hret, hime, hpend, hIF, hIE, -⟩ :=
    exec_main_plain H { s with cur_opcode := op } op 4 hH2
  have hmask0 : interrupt_mask
      (incr_cycles (exec_main H { s with cur_opcode := op } op).1
        (exec_main H { s with cur_opcode := op } op).2) = interrupt_mask s := by
    show (exec_main H { s with cur_opcode := op } op).1.regIF &&&
        (exec_main H { s with cur_opcode := op } op).1.regIE &&& 0x1f
      = interrupt_mask s
    rw [hIF, hIE]
    rfl
  have hnoY : ¬((intr_countdown
      (incr_cycles (exec_main H { s with cur_opcode := op } op).1
        (exec_main H { s with cur_opcode := op } op).2)).ime = true ∧
      interrupt_mask
        (incr_cycles (exec_main H { s with cur_opcode := op } op).1
          (exec_main H { s with cur_opcode := op } op).2) ≠ 0) := by
    intro hcon
    apply hf
    refine ⟨?_, fun h0 => hcon.2 (hmask0.trans h0)⟩
    have hcg := cd_ime_congr
      (incr_cycles (exec_main H { s with cur_opcode := op } op).1
        (exec_main H { s with cur_opcode := op } op).2) s hpend hime
    exact hcg.symm.trans hcon.1
  have hnd := handle_no_dispatch _ hnoY
  refine ⟨hdec, by decide, by decide, by decide, by decide, by decide, ?_, ?_⟩
  · rw [hsim]
    exact hnd.1.trans hpc
  · rw [hsim, hnd.2.1]
    show (exec_main H { s with cur_opcode := op } op).1.cycles_total +
        (exec_main H { s with cur_opcode := op } op).2 = s.cycles_total + 4
    rw [hcy, hret]

/-- Witness for C5's amended step property at a concrete state with 0xDB at
PC = 0x0100. -/
theorem c5_unused_amended_witness :
    (simulate nopHandlers cbId idConsole c5state).pc = 0x101 ∧
    (simulate nopHandlers cbId idConsole c5state).cycles_total = 4 := by
  have hp := c5_unused_amended nopHandlers cbId idConsole c5state 0xdb
    (Or.inl rfl) (fun o t => rfl) rfl rfl rfl rfl (by decide) (by decide)
  exact ⟨hp.2.2.2.2.2.2.1, hp.2.2.2.2.2.2.2⟩

/-- C6 amended: for every prior state, `reset()` establishes AF = 0x01B0,
BC = 0x0013, DE = 0x00D8, HL = 0x014D, SP = 0xFFFE, PC = 0x0000
(unconditionally — there is no bootstrap-ROM conditional; the older variant
uses 0x0100 instead) and `cycles_total = 0`, and leaves `asleep`, `ime`,
`ime_pending`, `halt_bug_skip`, `cur_opcode` (and `running`) unchanged
rather than clearing them. -/
theorem c6_reset_amended (s : CPU) :
    (reset s).af = 0x01b0 ∧ (reset s).bc = 0x0013 ∧ (reset s).de = 0x00d8 ∧
    (reset s).hl = 0x014d ∧ (reset s).sp = 0xfffe ∧ (reset s).pc = 0x0 ∧
    (reset s).cycles_total = 0 ∧
    (reset s).asleep = s.asleep ∧ (reset s).ime = s.ime ∧
    (reset s).intr_pending = s.intr_pending ∧
    (reset s).haltbug = s.haltbug ∧ (reset s).cur_opcode = s.cur_opcode ∧
    (reset s).running = s.running :=
  ⟨rfl, rfl, rfl, rfl, rfl, rfl, rfl, rfl, rfl, rfl, rfl, rfl, rfl⟩

/-- C6 counterexample: after `reset()` of a state carrying sleep/IME/toggle/
HALT-bug/opcode residue, none of `asleep`, `ime`, `ime_pending`,
`halt_bug_skip`, `cur_opcode` is cleared, and PC is 0x0000, not 0x0100,
despite no bootstrap ROM existing anywhere in the core. -/
theorem c6_reset_counterexample :
    (reset c6state).asleep = true ∧ (reset c6state).ime = true ∧
    (reset c6state).intr_pending = 2 ∧ (reset c6state).haltbug = 2 ∧
    (reset c6state).cur_opcode = 0x76 ∧ (reset c6state).pc = 0 ∧
    (reset c6state).pc ≠ 0x100 := by decide

/-- C7 amended: a halted CPU is woken by the next simulate step exactly when
IME (as updated by the countdown) is set and an enabled interrupt is
pending; with IME clear the CPU stays asleep even though `IF & IE & 0x1F`
is non-zero. -/
theorem c7_wake_requires_ime (H : Handlers) (CB : CbReg) (console : Console)
    (s : CPU) (hs : s.asleep = true) :
    ((intr_countdown s).ime = true → interrupt_mask s ≠ 0 →
      (simulate H CB console s).asleep = false) ∧
    ((intr_countdown s).ime = false →
      (simulate H CB console s).asleep = true) := by
  have hsim : simulate H CB console s =
      handle_interrupts (incr_cycles s 4) := by
    unfold simulate
    rw [if_neg (by simp [hs])]
  constructor
  · intro h1 h2
    rw [hsim]
    have h1b : (intr_countdown (incr_cycles s 4)).ime = true :=
      (cd_ime_congr (incr_cycles s 4) s rfl rfl).trans h1
    have h2b : interrupt_mask (intr_countdown (incr_cycles s 4)) ≠ 0 := by
      rw [cd_mask]; exact h2
    exact (service_post (intr_countdown (incr_cycles s 4)) h1b h2b).2.1
  · intro h1
    rw [hsim]
    have hno : ¬((intr_countdown (incr_cycles s 4)).ime = true ∧
        interrupt_mask (intr_countdown (incr_cycles s 4)) ≠ 0) := by
      intro hcon
      have hx := (cd_ime_congr (incr_cycles s 4) s rfl rfl).symm.trans hcon.1
      rw [h1] at hx
      exact Bool.false_ne_true hx
    unfold handle_interrupts after_service
    rw [intr_service_no _ hno, hb_asleep, cd_asleep]
    exact hs

/-- Witness for C7's amended wake direction: halted, IME on, VBlank pending
and enabled — the next step wakes the CPU. -/
theorem c7_wake_requires_ime_witness :
    (simulate nopHandlers cbId idConsole c7wake).asleep = false := by
  have hp := c7_wake_requires_ime nopHandlers cbId idConsole c7wake rfl
  exact hp.1 (by decide) (by decide)

/-- C7 counterexample: halted with an enabled interrupt pending but IME off,
the next simulate step does not clear `asleep`. -/
theorem c7_wake_counterexample :
    c7state.asleep = true ∧ interrupt_mask c7state ≠ 0 ∧
    c7state.ime = false ∧
    (simulate nopHandlers cbId idConsole c7state).asleep = true := by decide

/-- C8 counterexample: a running, awake step in which the debug break fires
and the user quits leaves `cycles_total` unchanged, so `cycles_total` does
not strictly increase on every running step. -/
theorem c8_quit_freezes_cycles :
    c8state.running = true ∧ c8state.asleep = false ∧
    (simulate nopHandlers cbId quitConsole c8state).cycles_total
      = c8state.cycles_total := by decide

/-- C8 amended: provided handlers report at least one T-state and neither
handlers, callbacks nor the console shrink the cycle counter, `cycles_total`
strictly increases on every awake step on which the user does not quit
(console preserves the running flag); and a halted step with no enabled
interrupt pending adds exactly 4. -/
theorem c8_cycles_amended (H : Handlers) (CB : CbReg) (console : Console)
    (s : CPU)
    (hH1 : ∀ g o t, t.cycles_total ≤ ((H g o t).1).cycles_total)
    (hH2 : ∀ g o t, 1 ≤ (H g o t).2)
    (hCB : ∀ i o t, t.cycles_total ≤ (CB i o t).cycles_total)
    (hcon1 : ∀ t, t.cycles_total ≤ (console t).cycles_total)
    (hcon2 : ∀ t, (console t).running = t.running) :
    (s.asleep = false → s.running = true →
      s.cycles_total < (simulate H CB console s).cycles_total) ∧
    (s.asleep = true → interrupt_mask s = 0 →
      (simulate H CB console s).cycles_total = s.cycles_total + 4) := by
  constructor
  · intro ha hr
    simp only [simulate]
    rw [if_pos ha, handle_cycles]
    have hq : (exec_prologue CB console { s with cur_opcode := read8 s s.pc }
        (read8 s s.pc)).2 = false :=
      prologue_no_quit CB console _ _ hr hcon2
    have hex : execute H CB console { s with cur_opcode := read8 s s.pc }
        (read8 s s.pc)
        = exec_main H (exec_prologue CB console
            { s with cur_opcode := read8 s s.pc } (read8 s s.pc)).1
            (read8 s s.pc) := by
      simp only [execute]
      rw [hq]
      rfl
    rw [hex]
    have h1 := prologue_cycles CB console
      { s with cur_opcode := read8 s s.pc } (read8 s s.pc) hCB hcon1
    have h2 := exec_main_cycles_le H (exec_prologue CB console
      { s with cur_opcode := read8 s s.pc } (read8 s s.pc)).1
      (read8 s s.pc) hH1
    have h3 : 1 ≤ (exec_main H (exec_prologue CB console
        { s with cur_opcode := read8 s s.pc } (read8 s s.pc)).1
        (read8 s s.pc)).2 := by
      rw [exec_main_ret]
      exact hH2 _ _ _
    dsimp only at h1
    simp only [incr_cycles]
    omega
  · intro ha hm
    unfold simulate
    rw [if_neg (by simp [ha])]
    have hno : ¬((intr_countdown (incr_cycles s 4)).ime = true ∧
        interrupt_mask (incr_cycles s 4) ≠ 0) := by
      intro hcon
      exact hcon.2 hm
    rw [(handle_no_dispatch _ hno).2.1]
    rfl

/-- Witness for C8's amended strict-increase direction on the baseline
state under the spec-modelled no-op handlers. -/
theorem c8_cycles_amended_witness :
    base.cycles_total < (simulate nopHandlers cbId idConsole base).cycles_total := by
  have hp := c8_cycles_amended nopHandlers cbId idConsole base
    (fun g o t => le_refl _) (fun g o t => by show (1:Nat) ≤ 4; norm_num)
    (fun i o t => le_refl _) (fun t => le_refl _) (fun t => rfl)
  exact hp.1 rfl rfl

/-- C9 amended: in the authoritative `CPU::execute`, when no break fires and
a breakpoint is registered at the current PC, the dispatch prologue invokes
exactly the breakpoint callback (with the CPU and opcode) and nothing else:
the result state is the callback's, so in particular neither
`break_on_steps` is adopted as the step period nor `verbose_instr` as the
machine's verbose flag (that adoption exists only in the older variant,
`src/unnamed/part_001` lines 58-67). -/
theorem c9_callback_only (CB : CbReg) (console : Console) (s : CPU)
    (op : Nat) (bp : Breakpoint) (h1 : s.brk = false)
    (h2 : s.break_steps_cnt = 0)
    (h3 : find_bp s.breakpoints s.pc = some bp) :
    exec_prologue CB console s op = (CB bp.cb op s, false) := by
  simp only [exec_prologue]
  rw [break_time_idle s h1 h2]
  simp [h3]

/-- Witness for C9's amended prologue property at the concrete breakpoint
state. -/
theorem c9_callback_only_witness :
    exec_prologue cbId idConsole c9state 0 = (cbId 0 0 c9state, false) :=
  c9_callback_only cbId idConsole c9state 0 c9bp rfl rfl (by decide)

/-- C9 counterexample: with a breakpoint `{break_on_steps := 5,
verbose_instr := true}` registered at PC and a do-nothing callback, the step
completes with the step period still 0 and verbose still false — the
breakpoint's values are not adopted. -/
theorem c9_no_adoption :
    find_bp c9state.breakpoints c9state.pc = some c9bp ∧
    c9bp.break_on_steps = 5 ∧ c9bp.verbose_instr = true ∧
    (simulate nopHandlers cbId idConsole c9state).break_steps_cnt = 0 ∧
    (simulate nopHandlers cbId idConsole c9state).break_steps = 0 ∧
    (simulate nopHandlers cbId idConsole c9state).verbose = false := by decide

/-- The state with which a quit step reaches `handle_interrupts`: opcode
latched, one-shot break consumed, machine stopped, no cycles added. -/
def quit_state (s : CPU) : CPU :=
  { s with cur_opcode := read8 s s.pc, brk := false, running := false,
           cycles_total := s.cycles_total + 0 }

/-- C10: when the user quits via the debug console during a break (console
action = `stop`), the same simulate call still runs `handle_interrupts`
after `execute` returns 0: the step leaves `running = false` and
`cycles_total` unchanged, and — the IME countdown having advanced — if IME
is then true with a non-zero mask, an interrupt is serviced within that very
step: IME is cleared, the CPU is awake, the pending toggle is cleared, and
(for a pending VBlank) PC lands on 0x40. -/
theorem c10_quit_still_services (H : Handlers) (CB : CbReg) (s : CPU)
    (h0 : s.asleep = false) (hbrk : s.brk = true)
    (h1 : (intr_countdown s).ime = true) (h2 : interrupt_mask s ≠ 0) :
    (simulate H CB quitConsole s).running = false ∧
    (simulate H CB quitConsole s).cycles_total = s.cycles_total ∧
    (simulate H CB quitConsole s).ime = false ∧
    (simulate H CB quitConsole s).asleep = false ∧
    (simulate H CB quitConsole s).intr_pending = 0 ∧
    (interrupt_mask s &&& 0x1 ≠ 0 → (simulate H CB quitConsole s).pc = 0x40) := by
  have hex : execute H CB quitConsole { s with cur_opcode := read8 s s.pc }
      (read8 s s.pc) =
      ({ s with cur_opcode := read8 s s.pc, brk := false,
                running := false }, 0) := by
    simp only [execute, exec_prologue, break_time, quitConsole, stop]
    simp [hbrk]
  have hsim : simulate H CB quitConsole s =
      handle_interrupts (quit_state s) := by
    simp only [simulate]
    rw [if_pos h0, hex]
    rfl
  rw [hsim]
  have h1t : (intr_countdown (quit_state s)).ime = true :=
    (cd_ime_congr (quit_state s) s rfl rfl).trans h1
  have h2t : interrupt_mask (intr_countdown (quit_state s)) ≠ 0 := by
    rw [cd_mask]; exact h2
  have hp := service_post (intr_countdown (quit_state s)) h1t h2t
  refine ⟨?_, ?_, hp.1, hp.2.1, hp.2.2.1, ?_⟩
  · rw [handle_running]
    rfl
  · rw [handle_cycles]
    rfl
  · intro hb1
    have hb1t : interrupt_mask (intr_countdown (quit_state s)) &&& 0x1 ≠ 0 := by
      rw [cd_mask]; exact hb1
    exact (hp.2.2.2.2.2.2.2.2.1 hb1t).1

/-- Witness for C10 at a concrete state: break armed, IME on, VBlank
pending; the quit step stops the machine yet services the interrupt. -/
theorem c10_quit_still_services_witness :
    (simulate nopHandlers cbId quitConsole c10state).running = false ∧
    (simulate nopHandlers cbId quitConsole c10state).pc = 0x40 := by
  have hp := c10_quit_still_services nopHandlers cbId c10state
    rfl rfl (by decide) (by decide)
  exact ⟨hp.1, hp.2.2.2.2.2 (by decide)⟩


end Gamebro
